import Mathlib

/-!
Verification of the threshold/range evaluation and status-aggregation core of
the `monitoring_plugins` repository, shallowly embedded from
`src/monitoring_util.py`.

Modelling conventions:
* Python strings are embedded as `List Char`.
* Python floats are embedded as `ℚ`; every numeric literal appearing in the
  claims is exactly representable both as a binary64 float and as a rational,
  and the core performs only comparisons (no rounding-sensitive arithmetic),
  so the embedding is exact on the inputs under consideration.
  `parseFloat` models Python `float(str)` restricted to plain decimal
  literals with an optional sign and an optional fractional part (no
  exponent, no `inf`/`nan`, no surrounding whitespace); the claims only
  exercise such literals.
* Python exceptions are embedded as an error type returned through `Except`:
  `ValueError` with its message, `TypeError` (raised by `float` applied to a
  non-string/non-number such as the builtin `range` type), and `KeyError`
  (raised by a failed dict lookup).
* The module-level nagios status constants `OK`, `WARNING`, `CRITICAL`,
  `UNKNOWN` are embedded with their initial values 0, 1, 2, 3; the claims
  under study do not exercise the command-line remapping of these globals.
-/

namespace MonitoringUtil

/-- `OK = 0`, from the module-level constants of `monitoring_util.py`. -/
def OK : Nat := 0

/-- `WARNING = 1`. -/
def WARNING : Nat := 1

/-- `CRITICAL = 2`. -/
def CRITICAL : Nat := 2

/-- `UNKNOWN = 3`. -/
def UNKNOWN : Nat := 3

/-- Python exceptions that the embedded code can raise. -/
inductive PyError where
  | valueError : List Char → PyError
  | typeError : PyError
  | keyError : PyError
deriving DecidableEq

/-- The `errstat_to_str` dict of `monitoring_util.py`: maps a numeric status
to its severity name; a missing key is modelled as `none` (Python would raise
`KeyError`). -/
def errstat_to_str (n : Nat) : Option (List Char) :=
  if n = OK then some (("OK").data)
  else if n = WARNING then some (("WARNING").data)
  else if n = CRITICAL then some (("CRITICAL").data)
  else if n = UNKNOWN then some (("UNKNOWN").data)
  else none

/-- Decimal digit test, as used by Python float literal syntax. -/
def isDigit (c : Char) : Bool := decide ('0' ≤ c) && decide (c ≤ '9')

/-- Numeric value of a list of decimal digits (most significant first). -/
def digitsVal (l : List Char) : Nat :=
  l.foldl (fun acc c => acc * 10 + (c.toNat - 48)) 0

/-- Unsigned part of a Python float literal: digits, optionally followed by a
dot and further digits; at least one digit must be present overall. -/
def parseUnsigned (l : List Char) : Option ℚ :=
  let intPart := l.takeWhile isDigit
  let rest := l.dropWhile isDigit
  match rest with
  | [] => if intPart = [] then none else some (digitsVal intPart)
  | '.' :: frac =>
      if frac.all isDigit && (!intPart.isEmpty || !frac.isEmpty) then
        some ((digitsVal intPart : ℚ) + (digitsVal frac : ℚ) / (10 : ℚ) ^ frac.length)
      else none
  | _ => none

/-- Models Python `float(s)` on plain decimal literals: optional sign then an
unsigned decimal literal. Returns `none` where Python raises `ValueError`. -/
def parseFloat (l : List Char) : Option ℚ :=
  match l with
  | '-' :: rest => (parseUnsigned rest).map Neg.neg
  | '+' :: rest => parseUnsigned rest
  | _ => parseUnsigned l

/-- Models Python `str.split(':')`: splits a string into the (possibly empty)
pieces between `:` separators. `splitOnColon [] = [[]]`, matching
`''.split(':') == ['']`. -/
def splitOnColon : List Char → List (List Char)
  | [] => [[]]
  | c :: rest =>
      if c = ':' then [] :: splitOnColon rest
      else
        match splitOnColon rest with
        | [] => [[c]]
        | h :: t => (c :: h) :: t

/-- Python `sys.maxsize` on a 64-bit platform, the value `Check_Range`
assigns to `end` when the right side of the colon is empty. -/
def maxsize : ℚ := 9223372036854775807

/-- The state of a successfully constructed `Check_Range` object:
the stripped specification string, the `inside` flag (set when the
specification started with `@`), and the numeric bounds. -/
structure Check_Range where
  range : List Char
  inside : Bool
  start : ℚ
  end_ : ℚ
deriving DecidableEq

/-- The body of `Check_Range.__init__` after the `@` prefix has been handled:
`range` is the (possibly stripped) specification and `inside` records whether
an `@` was stripped. Split on `:`; three or more pieces raise
`ValueError('Invalid range')`; with two pieces an empty left side gives
`start = 0` and an empty right side gives `end = sys.maxsize`, non-empty
sides go through `float` (raising `ValueError` on a malformed literal); with
one piece the code executes `self.end = float(range)` where `range` is the
Python BUILTIN type (the parameter is named `range_` and the attribute
`self.range` is not what the expression names), so `TypeError` is raised
unconditionally; finally `start > end` raises `ValueError`. -/
def Check_Range.initCore (inside : Bool) (range : List Char) : Except PyError Check_Range :=
  match splitOnColon range with
  | [t0, t1] =>
      (if t0 = [] then Except.ok (0 : ℚ)
       else match parseFloat t0 with
            | some q => Except.ok q
            | none => Except.error (PyError.valueError (("could not convert string to float").data))).bind
      fun s =>
      (if t1 = [] then Except.ok maxsize
       else match parseFloat t1 with
            | some q => Except.ok q
            | none => Except.error (PyError.valueError (("could not convert string to float").data))).bind
      fun e =>
      if e < s then Except.error (PyError.valueError (("Start must be lower than end").data))
      else Except.ok ⟨range, inside, s, e⟩
  | [_] => Except.error PyError.typeError
  | _ => Except.error (PyError.valueError (("Invalid range").data))

/-- `Check_Range.__init__`: if the specification starts with `@`, set
`inside` and strip that character, then run the rest of the constructor
(`Check_Range.initCore`). -/
def Check_Range.init (range_ : List Char) : Except PyError Check_Range :=
  if range_.head? = some '@' then Check_Range.initCore true range_.tail
  else Check_Range.initCore false range_

/-- `Check_Range.check`: `value < self.start or value > self.end`.
Note the `inside` flag is not consulted. -/
def Check_Range.check (self : Check_Range) (value : ℚ) : Bool :=
  decide (value < self.start) || decide (self.end_ < value)

/-- `Check_Range.check_warn_crit`: start acts as the warning bound and end as
the critical bound. -/
def Check_Range.check_warn_crit (self : Check_Range) (value : ℚ) : Nat :=
  if self.end_ < value then CRITICAL
  else if self.start < value then WARNING
  else OK

/-- The mutable state of a `Response` object. -/
structure Response where
  status : Nat
  perfdata : Option (List Char)
  details : Option (List (List Char))
deriving DecidableEq

/-- `Response.__init__`: status starts at `UNKNOWN`, no perfdata, no
details. -/
def Response.init : Response := ⟨UNKNOWN, none, none⟩

/-- `Response.set_status`: raises the stored status to `status` when the new
status is strictly greater. -/
def Response.set_status (self : Response) (status : Nat) : Response :=
  if self.status < status then { self with status := status } else self

/-- `Response.add_detail`: lazily creates the detail list and appends. -/
def Response.add_detail (self : Response) (msg : List Char) : Response :=
  match self.details with
  | none => { self with details := some [msg] }
  | some l => { self with details := some (l ++ [msg]) }

/-- The spec-level `record(status, detail)` operation, realised in the source
as a `set_status` call paired with an `add_detail` call. -/
def Response.record (self : Response) (status : Nat) (detail : List Char) : Response :=
  (self.set_status status).add_detail detail

/-- `Response.exit`, embedded as a pure function from the object state and the
arguments to the printed text and the process exit code: an explicit
non-`None` `status` overrides the stored one, the severity name comes from
`errstat_to_str` (a missing key raises `KeyError`), an optional message is
appended after a space, an optional perfdata string after `|`, and each
detail on its own line; the exit code is the final stored status. -/
def Response.exit (self : Response) (status : Option Nat) (msg : Option (List Char)) :
    Except PyError (List Char × Nat) :=
  let st : Nat := match status with
                  | some v => v
                  | none => self.status
  match errstat_to_str st with
  | none => Except.error PyError.keyError
  | some name =>
      let s := name
      let s := match msg with
               | some m => s ++ ' ' :: m
               | none => s
      let s := match self.perfdata with
               | some p => s ++ '|' :: p
               | none => s
      let s := match self.details with
               | some ds => s ++ (ds.map (fun d => '\n' :: d)).flatten
               | none => s
      Except.ok (s, st)

/-- The severity-name part of the `Response.exit` output. -/
def statusName (st : Nat) : List Char := (errstat_to_str st).getD []

/-- The message part of the `Response.exit` output. -/
def msgPart : Option (List Char) → List Char
  | some m => ' ' :: m
  | none => []

/-- The perfdata part of the `Response.exit` output. -/
def perfPart : Option (List Char) → List Char
  | some p => '|' :: p
  | none => []

/-- The detail-lines part of the `Response.exit` output: each recorded detail
preceded by a newline, in recorded order. -/
def detailsPart : Option (List (List Char)) → List Char
  | some ds => (ds.map (fun d => '\n' :: d)).flatten
  | none => []

/-! ### Helper lemmas about the embedded primitives -/

theorem splitOnColon_ne_nil (l : List Char) : splitOnColon l ≠ [] := by
  cases l with
  | nil => simp [splitOnColon]
  | cons c rest =>
      simp only [splitOnColon]
      split
      · simp
      · cases splitOnColon rest <;> simp

theorem splitOnColon_no_colon (l : List Char) (h : (':') ∉ l) : splitOnColon l = [l] := by
  induction l with
  | nil => rfl
  | cons c rest ih =>
      simp only [List.mem_cons, not_or] at h
      have hc : ¬(c = ':') := fun hc => h.1 hc.symm
      simp only [splitOnColon, if_neg hc, ih h.2]

theorem splitOnColon_append (sa sb : List Char) (h : (':') ∉ sa) :
    splitOnColon (sa ++ ':' :: sb) = sa :: splitOnColon sb := by
  induction sa with
  | nil => simp [splitOnColon]
  | cons c rest ih =>
      simp only [List.mem_cons, not_or] at h
      have hc : ¬(c = ':') := fun hc => h.1 hc.symm
      simp [splitOnColon, hc, ih h.2]

theorem length_splitOnColon (l : List Char) : (splitOnColon l).length = l.count ':' + 1 := by
  induction l with
  | nil => rfl
  | cons c rest ih =>
      by_cases hc : c = ':'
      · subst hc
        simp [splitOnColon, List.count_cons, ih]
      · simp only [splitOnColon, if_neg hc]
        cases h : splitOnColon rest with
        | nil => exact absurd h (splitOnColon_ne_nil rest)
        | cons x xs =>
            rw [h] at ih
            have hc2 : ¬((':') = c) := fun hx => hc hx.symm
            simp [List.count_cons, hc, hc2, ← ih]

theorem parseFloat_nil : parseFloat [] = none := rfl

theorem parseFloat_ne_nil {sa : List Char} {a : ℚ} (h : parseFloat sa = some a) :
    sa ≠ [] := by
  intro hn
  rw [hn, parseFloat_nil] at h
  exact Option.noConfusion h

/-- Reduction of `initCore` on a specification with exactly one colon and
numeric text on both sides. -/
theorem initCore_two (inside : Bool) (sa sb : List Char) (a b : ℚ)
    (h1 : parseFloat sa = some a) (h2 : parseFloat sb = some b)
    (ha : (':') ∉ sa) (hb : (':') ∉ sb) :
    Check_Range.initCore inside (sa ++ ':' :: sb) =
      if b < a then Except.error (PyError.valueError (("Start must be lower than end").data))
      else Except.ok ⟨sa ++ ':' :: sb, inside, a, b⟩ := by
  have hsplit : splitOnColon (sa ++ ':' :: sb) = [sa, sb] := by
    rw [splitOnColon_append sa sb ha, splitOnColon_no_colon sb hb]
  have e1 := parseFloat_ne_nil h1
  have e2 := parseFloat_ne_nil h2
  simp only [Check_Range.initCore, hsplit, if_neg e1, if_neg e2, h1, h2, Except.bind]

/-- Reduction of `initCore` on a specification of the form `A:` (right side
empty): the end bound is `sys.maxsize`. -/
theorem initCore_right_empty (inside : Bool) (sa : List Char) (a : ℚ)
    (h1 : parseFloat sa = some a) (ha : (':') ∉ sa) :
    Check_Range.initCore inside (sa ++ [':']) =
      if maxsize < a then Except.error (PyError.valueError (("Start must be lower than end").data))
      else Except.ok ⟨sa ++ [':'], inside, a, maxsize⟩ := by
  have hsplit : splitOnColon (sa ++ [':']) = [sa, []] := by
    have : sa ++ [':'] = sa ++ ':' :: ([] : List Char) := rfl
    rw [this, splitOnColon_append sa [] ha]
    rfl
  have e1 := parseFloat_ne_nil h1
  simp only [Check_Range.initCore, hsplit, if_neg e1, h1, Except.bind, if_pos]

/-- Reduction of `initCore` on a specification of the form `:B` (left side
empty): the start bound is `0`. -/
theorem initCore_left_empty (inside : Bool) (sb : List Char) (b : ℚ)
    (h2 : parseFloat sb = some b) (hb : (':') ∉ sb) :
    Check_Range.initCore inside (':' :: sb) =
      if b < 0 then Except.error (PyError.valueError (("Start must be lower than end").data))
      else Except.ok ⟨':' :: sb, inside, 0, b⟩ := by
  have hsplit : splitOnColon (':' :: sb) = [[], sb] := by
    have : (':' :: sb) = ([] : List Char) ++ ':' :: sb := rfl
    rw [this, splitOnColon_append [] sb (by simp), splitOnColon_no_colon sb hb]
  have e2 := parseFloat_ne_nil h2
  simp only [Check_Range.initCore, hsplit, if_neg e2, h2, Except.bind, if_pos]

/-- With two or more colons in the (stripped) specification, `initCore`
raises `ValueError('Invalid range')`. -/
theorem initCore_many (inside : Bool) (l : List Char) (h : 2 ≤ l.count ':') :
    Check_Range.initCore inside l =
      Except.error (PyError.valueError (("Invalid range").data)) := by
  have hlen : 3 ≤ (splitOnColon l).length := by
    rw [length_splitOnColon]
    omega
  rcases hsp : splitOnColon l with _ | ⟨x, _ | ⟨y, _ | ⟨z, w⟩⟩⟩ <;>
    rw [hsp] at hlen <;> simp at hlen
  rw [Check_Range.initCore, hsp]

/-- With no colon in the (stripped) specification, `initCore` reaches the
`self.end = float(range)` statement and raises `TypeError`. -/
theorem initCore_one (inside : Bool) (l : List Char) (h : (':') ∉ l) :
    Check_Range.initCore inside l = Except.error PyError.typeError := by
  rw [Check_Range.initCore, splitOnColon_no_colon l h]

/-- `Check_Range.init` on a specification that does not start with `@`. -/
theorem init_no_at (l : List Char) (h : l.head? ≠ some '@') :
    Check_Range.init l = Check_Range.initCore false l := by
  rw [Check_Range.init, if_neg h]

/-- `Check_Range.init` on a specification that starts with `@`. -/
theorem init_at (l : List Char) : Check_Range.init ('@' :: l) = Check_Range.initCore true l := by
  simp [Check_Range.init]

theorem set_status_details (resp : Response) (s : Nat) :
    (resp.set_status s).details = resp.details := by
  rw [Response.set_status]
  split <;> rfl

theorem set_status_status (resp : Response) (s : Nat) :
    (resp.set_status s).status = max resp.status s := by
  rw [Response.set_status]
  split <;> simp <;> omega

theorem errstat_to_str_of_le (st : Nat) (h : st ≤ 3) :
    errstat_to_str st = some (statusName st) := by
  interval_cases st <;> rfl

theorem add_detail_status (resp : Response) (d : List Char) :
    (resp.add_detail d).status = resp.status := by
  rw [Response.add_detail]
  cases resp.details <;> rfl

/-! ### Claim theorems -/

/-- Claim C1 (code bug). The claim states that every colon-free specification
`"N"` parses to `start = 0, end = N, invert = false` without failing, and the
constructor's own docstring (`start and : is not required if start = 0`) and
its callers show that is the intent. But in the one-piece branch the code
executes `self.end = float(range)`, where `range` names the Python BUILTIN
type (the parameter is `range_` and the attribute is `self.range`), so every
colon-free specification raises `TypeError` instead of constructing a
range. -/
theorem c1_no_colon_spec_raises_typeerror (l : List Char) (h : (':') ∉ l) :
    Check_Range.init l = Except.error PyError.typeError := by
  by_cases hat : l.head? = some '@'
  · rcases l with _ | ⟨c, rest⟩
    · simp at hat
    · have hc : c = '@' := by simpa using hat
      subst hc
      rw [init_at]
      exact initCore_one true rest (fun hm => h (List.mem_cons_of_mem _ hm))
  · rw [init_no_at l hat]
    exact initCore_one false l h

/-- Witness for C1: the concrete colon-free specification `"100"` raises
`TypeError` instead of yielding `start = 0, end = 100`. -/
theorem c1_no_colon_spec_raises_typeerror_witness :
    Check_Range.init (("100").data) = Except.error PyError.typeError :=
  c1_no_colon_spec_raises_typeerror (("100").data) (by decide)

/-- Counterexample for claim C2: the claim says that on an inverted range the
alert condition is XORed with `invert`, so for `@10:20` the value `15` must
alert and `5` must not. On the code, `Check_Range.check` never consults the
`inside` flag: `@10:20` parses with `inside = true`, yet `15` does NOT alert
and `5` DOES alert. -/
theorem c2_counterexample :
    (Check_Range.init (("@10:20").data)).map (fun r => r.inside) = Except.ok true ∧
    (Check_Range.init (("@10:20").data)).map (fun r => r.check 15) = Except.ok false ∧
    (Check_Range.init (("@10:20").data)).map (fun r => r.check 5) = Except.ok true :=
  ⟨rfl, rfl, rfl⟩

/-- Claim C2 as amended: `check` returns true exactly when
`value < start` or `value > end`, with the `inside` (invert) flag ignored
entirely; consequently the non-inverted examples behave as claimed
(`0:100`: values 0, 50, 100 no alert, 150 alert) while for the inverted
range `@10:20` the value 15 does not alert and 5 alerts, exactly as for the
non-inverted `10:20`. -/
theorem c2_check_ignores_inside :
    (∀ (r : Check_Range) (v : ℚ),
        Check_Range.check { r with inside := !r.inside } v = r.check v ∧
        (r.check v = true ↔ v < r.start ∨ r.end_ < v)) ∧
    (Check_Range.init (("0:100").data)).map (fun r => r.check 0) = Except.ok false ∧
    (Check_Range.init (("0:100").data)).map (fun r => r.check 50) = Except.ok false ∧
    (Check_Range.init (("0:100").data)).map (fun r => r.check 100) = Except.ok false ∧
    (Check_Range.init (("0:100").data)).map (fun r => r.check 150) = Except.ok true ∧
    (Check_Range.init (("@10:20").data)).map (fun r => r.check 15) = Except.ok false ∧
    (Check_Range.init (("@10:20").data)).map (fun r => r.check 5) = Except.ok true := by
  refine ⟨fun r v => ⟨rfl, ?_⟩, rfl, rfl, rfl, rfl, rfl, rfl⟩
  simp [Check_Range.check]

/-- Counterexample for claim C3: a fresh `Response` starts with status
`UNKNOWN = 3`, the maximum of the severity ranking, so recording
`[OK, WARNING, OK, CRITICAL]` into a fresh aggregate leaves the status at
`UNKNOWN`, not `CRITICAL` as the claim states. -/
theorem c3_counterexample :
    ((((Response.init.record OK (("a").data)).record WARNING (("b").data)).record OK
          (("c").data)).record CRITICAL (("d").data)).status = UNKNOWN ∧
      UNKNOWN ≠ CRITICAL :=
  ⟨rfl, by decide⟩

/-- Claim C3 as amended: each `record(status, detail)` call (realised as
`set_status` plus `add_detail`) appends the detail and updates the running
status to `max(current, status)` under the ranking OK=0 < WARNING=1 <
CRITICAL=2 < UNKNOWN=3; but a fresh `Response` starts at `UNKNOWN = 3`, so
recording `[OK, WARNING, OK, CRITICAL]` into a fresh aggregate yields
`UNKNOWN`, not `CRITICAL`. -/
theorem c3_record_takes_max :
    (∀ (resp : Response) (s : Nat) (d : List Char),
        ((resp.record s d).status = max resp.status s) ∧
        (resp.record s d).details = some ((resp.details.getD []) ++ [d])) ∧
    Response.init.status = UNKNOWN ∧
    ((((Response.init.record OK (("a").data)).record WARNING (("b").data)).record OK
          (("c").data)).record CRITICAL (("d").data)).status = UNKNOWN := by
  refine ⟨fun resp s d => ⟨?_, ?_⟩, rfl, rfl⟩
  · have h1 : ((resp.set_status s).add_detail d).status = (resp.set_status s).status := by
      rw [Response.add_detail]
      cases (resp.set_status s).details <;> rfl
    rw [Response.record, h1, set_status_status]
  · simp only [Response.record, Response.add_detail, set_status_details]
    cases hd : resp.details <;> simp [hd, Response.set_status]

/-- Counterexample for claim C4: the code assigns `sys.maxsize`
(`9223372036854775807`), a finite number, as the end bound when the right
side of the colon is empty: parsing `"5:"` yields exactly that finite end
bound, and the valid specification `"10000000000000000000:"` (whose start
bound exceeds `sys.maxsize`) is rejected with
`ValueError('Start must be lower than end')`, which would be impossible if
the end bound were positive infinity. -/
theorem c4_counterexample :
    (Check_Range.init (("5:").data)).map (fun r => r.end_) =
        Except.ok 9223372036854775807 ∧
    Check_Range.init (("10000000000000000000:").data) =
        Except.error (PyError.valueError (("Start must be lower than end").data)) :=
  ⟨rfl, rfl⟩

/-- Claim C4 as amended: for a valid specification `A:` (right of colon
empty) the parsed end bound is `sys.maxsize = 9223372036854775807`, a finite
stand-in for infinity, provided `A` does not exceed it; for a valid
specification `:B` (left of colon empty, `B ≥ 0`) the parsed start bound is
`0`. -/
theorem c4_empty_side_defaults :
    (∀ (sa : List Char) (a : ℚ), parseFloat sa = some a → (':') ∉ sa →
        sa.head? ≠ some '@' → a ≤ maxsize →
        Check_Range.init (sa ++ [':']) = Except.ok ⟨sa ++ [':'], false, a, maxsize⟩) ∧
    (∀ (sb : List Char) (b : ℚ), parseFloat sb = some b → (':') ∉ sb → 0 ≤ b →
        Check_Range.init (':' :: sb) = Except.ok ⟨':' :: sb, false, 0, b⟩) := by
  constructor
  · intro sa a h1 ha hat hle
    have hh : (sa ++ [':']).head? ≠ some '@' := by
      rcases sa with _ | ⟨c, rest⟩
      · simp
      · simpa using hat
    rw [init_no_at _ hh, initCore_right_empty false sa a h1 ha, if_neg (not_lt.mpr hle)]
  · intro sb b h2 hb hle
    have hh : ((':' :: sb) : List Char).head? ≠ some '@' := by simp
    rw [init_no_at _ hh, initCore_left_empty false sb b h2 hb, if_neg (not_lt.mpr hle)]

/-- Witness for C4 (amended): `"5:"` parses with start 5 and end
`sys.maxsize`; `":7"` parses with start 0 and end 7. -/
theorem c4_empty_side_defaults_witness :
    Check_Range.init (("5:").data) = Except.ok ⟨("5:").data, false, 5, maxsize⟩ ∧
    Check_Range.init ((":7").data) = Except.ok ⟨(":7").data, false, 0, 7⟩ :=
  ⟨c4_empty_side_defaults.1 (("5").data) 5 rfl (by decide) (by decide)
     (by norm_num [maxsize]),
   c4_empty_side_defaults.2 (("7").data) 7 rfl (by decide) (by norm_num)⟩

/-- Claim C5 (confirmed): `check_warn_crit` returns `CRITICAL` when the value
exceeds the critical bound (the range's end), otherwise `WARNING` when it
exceeds the warning bound (the range's start), otherwise `OK`; in particular
with warning bound 20 and critical bound 50 (specification `"20:50"`), the
value 30 yields `WARNING`, 60 yields `CRITICAL` and 10 yields `OK`. -/
theorem c5_check_warn_crit :
    (∀ (r : Check_Range) (v : ℚ),
        (r.end_ < v → r.check_warn_crit v = CRITICAL) ∧
        (v ≤ r.end_ → r.start < v → r.check_warn_crit v = WARNING) ∧
        (v ≤ r.end_ → v ≤ r.start → r.check_warn_crit v = OK)) ∧
    (Check_Range.init (("20:50").data)).map (fun r => r.check_warn_crit 30) =
        Except.ok WARNING ∧
    (Check_Range.init (("20:50").data)).map (fun r => r.check_warn_crit 60) =
        Except.ok CRITICAL ∧
    (Check_Range.init (("20:50").data)).map (fun r => r.check_warn_crit 10) =
        Except.ok OK := by
  refine ⟨fun r v => ⟨fun h => ?_, fun h1 h2 => ?_, fun h1 h2 => ?_⟩, rfl, rfl, rfl⟩
  · rw [Check_Range.check_warn_crit, if_pos h]
  · rw [Check_Range.check_warn_crit, if_neg (not_lt.mpr h1), if_pos h2]
  · rw [Check_Range.check_warn_crit, if_neg (not_lt.mpr h1), if_neg (not_lt.mpr h2)]

/-- Witness for C5: the range with start 20 and end 50 classifies 60 as
`CRITICAL`, 30 as `WARNING` and 10 as `OK`. -/
theorem c5_check_warn_crit_witness :
    Check_Range.check_warn_crit ⟨("20:50").data, false, 20, 50⟩ 60 = CRITICAL ∧
    Check_Range.check_warn_crit ⟨("20:50").data, false, 20, 50⟩ 30 = WARNING ∧
    Check_Range.check_warn_crit ⟨("20:50").data, false, 20, 50⟩ 10 = OK :=
  ⟨(c5_check_warn_crit.1 ⟨("20:50").data, false, 20, 50⟩ 60).1 (by norm_num),
   (c5_check_warn_crit.1 ⟨("20:50").data, false, 20, 50⟩ 30).2.1 (by norm_num) (by norm_num),
   (c5_check_warn_crit.1 ⟨("20:50").data, false, 20, 50⟩ 10).2.2 (by norm_num) (by norm_num)⟩

/-- Claim C6 (confirmed): parsing raises `ValueError` (constructing no
range) for every specification containing two or more `:` separators, and
for every one-colon specification whose parsed bounds satisfy
`start > end`. -/
theorem c6_parse_failures :
    (∀ (l : List Char), 2 ≤ l.count ':' →
        Check_Range.init l = Except.error (PyError.valueError (("Invalid range").data))) ∧
    (∀ (sa sb : List Char) (a b : ℚ), parseFloat sa = some a → parseFloat sb = some b →
        (':') ∉ sa → (':') ∉ sb → sa.head? ≠ some '@' → b < a →
        Check_Range.init (sa ++ ':' :: sb) =
          Except.error (PyError.valueError (("Start must be lower than end").data))) := by
  constructor
  · intro l h
    by_cases hat : l.head? = some '@'
    · rcases l with _ | ⟨c, rest⟩
      · simp at hat
      · have hc : c = '@' := by simpa using hat
        subst hc
        rw [init_at]
        apply initCore_many
        rw [show ('@' :: rest).count ':' = rest.count ':' by simp [List.count_cons]] at h
        exact h
    · rw [init_no_at l hat]
      exact initCore_many false l h
  · intro sa sb a b h1 h2 ha hb hat hba
    have hh : (sa ++ ':' :: sb).head? ≠ some '@' := by
      rcases sa with _ | ⟨c, rest⟩
      · simp
      · simpa using hat
    rw [init_no_at _ hh, initCore_two false sa sb a b h1 h2 ha hb, if_pos hba]

/-- Witness for C6: `"1:2:3"` (two colons) and `"10:5"` (start above end)
are both rejected with `ValueError`. -/
theorem c6_parse_failures_witness :
    Check_Range.init (("1:2:3").data) =
        Except.error (PyError.valueError (("Invalid range").data)) ∧
    Check_Range.init (("10:5").data) =
        Except.error (PyError.valueError (("Start must be lower than end").data)) :=
  ⟨c6_parse_failures.1 (("1:2:3").data) (by decide),
   c6_parse_failures.2 (("10").data) (("5").data) 10 5 rfl rfl (by decide) (by decide)
     (by decide) (by norm_num)⟩

/-- Claim C7 (confirmed): `Response.exit` composes its output as the severity
name, then the message (after a space), then a `|`-prefixed perfdata token
when perfdata is present, then each recorded detail on its own line in the
order recorded (details are appended at the end by `add_detail`), and the
exit code equals the numeric encoding of the final status
(OK=0, WARNING=1, CRITICAL=2, UNKNOWN=3). -/
theorem c7_exit_format :
    (∀ (resp : Response) (status : Option Nat) (msg : Option (List Char)),
        status.getD resp.status ≤ 3 →
        resp.exit status msg =
          Except.ok (statusName (status.getD resp.status) ++ msgPart msg ++
              perfPart resp.perfdata ++ detailsPart resp.details,
            status.getD resp.status)) ∧
    (∀ (resp : Response) (d : List Char),
        (resp.add_detail d).details = some ((resp.details.getD []) ++ [d])) := by
  constructor
  · intro resp status msg h
    have hst := errstat_to_str_of_le _ h
    rcases resp with ⟨rs, perf, det⟩
    rcases status with _ | v <;>
      rcases msg with _ | m <;>
        rcases perf with _ | p <;>
          rcases det with _ | ds <;>
            simp_all [Response.exit, msgPart, perfPart, detailsPart, List.append_assoc]
  · intro resp d
    simp only [Response.add_detail]
    cases hd : resp.details <;> simp [hd]

/-- Witness for C7: a response with perfdata and two details, exited with an
explicit `CRITICAL`, produces the fully composed line and exit code 2. -/
theorem c7_exit_format_witness :
    Response.exit ⟨UNKNOWN, some (("load=5").data), some [("d1").data, ("d2").data]⟩
        (some CRITICAL) (some (("msg").data)) =
      Except.ok (statusName CRITICAL ++ msgPart (some (("msg").data)) ++
          perfPart (some (("load=5").data)) ++
          detailsPart (some [("d1").data, ("d2").data]), CRITICAL) :=
  c7_exit_format.1 ⟨UNKNOWN, some (("load=5").data), some [("d1").data, ("d2").data]⟩
    (some CRITICAL) (some (("msg").data)) (by decide)

/-- Claim C8 (confirmed): for numbers `A ≤ B`, parsing `@A:B` yields exactly
the same numeric bounds as parsing `A:B`, with `inside` (invert) true
instead of false. -/
theorem c8_at_prefix_inverts :
    ∀ (sa sb : List Char) (a b : ℚ), parseFloat sa = some a → parseFloat sb = some b →
      (':') ∉ sa → (':') ∉ sb → sa.head? ≠ some '@' → a ≤ b →
      Check_Range.init ('@' :: (sa ++ ':' :: sb)) =
          Except.ok ⟨sa ++ ':' :: sb, true, a, b⟩ ∧
      Check_Range.init (sa ++ ':' :: sb) =
          Except.ok ⟨sa ++ ':' :: sb, false, a, b⟩ := by
  intro sa sb a b h1 h2 ha hb hat hle
  have hh : (sa ++ ':' :: sb).head? ≠ some '@' := by
    rcases sa with _ | ⟨c, rest⟩
    · simp
    · simpa using hat
  constructor
  · rw [init_at, initCore_two true sa sb a b h1 h2 ha hb, if_neg (not_lt.mpr hle)]
  · rw [init_no_at _ hh, initCore_two false sa sb a b h1 h2 ha hb, if_neg (not_lt.mpr hle)]

/-- Witness for C8: `"@10:20"` and `"10:20"` parse to the same bounds 10 and
20, differing only in the invert flag. -/
theorem c8_at_prefix_inverts_witness :
    Check_Range.init (("@10:20").data) = Except.ok ⟨("10:20").data, true, 10, 20⟩ ∧
    Check_Range.init (("10:20").data) = Except.ok ⟨("10:20").data, false, 10, 20⟩ :=
  c8_at_prefix_inverts (("10").data) (("20").data) 10 20 rfl rfl (by decide) (by decide)
    (by decide) (by norm_num)

/-- Claim C9 (confirmed): a `Response` on which no `set_status` or
`add_detail` call was ever made exits with exactly the status the caller
passes explicitly to `exit`; the module never substitutes a default of its
own. -/
theorem c9_fresh_exit_default :
    ∀ (st : Nat) (msg : Option (List Char)), st ≤ 3 →
      Response.init.exit (some st) msg =
        Except.ok (statusName st ++ msgPart msg, st) := by
  intro st msg h
  have hst := errstat_to_str_of_le st h
  rcases msg with _ | m <;> simp [Response.exit, Response.init, hst, msgPart]

/-- Witness for C9: a fresh response exited with explicit `WARNING` prints
`WARNING` and exits with code 1. -/
theorem c9_fresh_exit_default_witness :
    Response.init.exit (some WARNING) none =
      Except.ok (statusName WARNING ++ msgPart none, WARNING) :=
  c9_fresh_exit_default WARNING none (by decide)

/-- Claim C10 (confirmed): the stored status is monotonically non-decreasing
across `set_status`/`record` calls; a status lower than the current one
leaves the state unchanged (for `record`, the status component unchanged);
and a fresh `Response` starts at `UNKNOWN = 3`. -/
theorem c10_status_monotone :
    (∀ (resp : Response) (s : Nat),
        resp.status ≤ (resp.set_status s).status ∧
        (s < resp.status → resp.set_status s = resp)) ∧
    (∀ (resp : Response) (s : Nat) (d : List Char),
        resp.status ≤ (resp.record s d).status ∧
        (s < resp.status → (resp.record s d).status = resp.status)) ∧
    Response.init.status = UNKNOWN ∧ UNKNOWN = 3 := by
  refine ⟨fun resp s => ⟨?_, ?_⟩, fun resp s d => ⟨?_, ?_⟩, rfl, rfl⟩
  · rw [set_status_status]
    omega
  · intro h
    rw [Response.set_status, if_neg (by omega)]
  · rw [Response.record, add_detail_status, set_status_status]
    omega
  · intro h
    rw [Response.record, add_detail_status, set_status_status]
    omega

/-- Witness for C10: on a response whose status is `CRITICAL = 2`, recording
the lower status `WARNING = 1` does not lower the stored status. -/
theorem c10_status_monotone_witness :
    (Response.mk 2 none none).status ≤ ((Response.mk 2 none none).set_status 1).status ∧
    (Response.mk 2 none none).set_status 1 = Response.mk 2 none none ∧
    ((Response.mk 2 none none).record 1 (("d").data)).status = 2 :=
  ⟨(c10_status_monotone.1 (Response.mk 2 none none) 1).1,
   (c10_status_monotone.1 (Response.mk 2 none none) 1).2 (by decide),
   (c10_status_monotone.2.1 (Response.mk 2 none none) 1 (("d").data)).2 (by decide)⟩

end MonitoringUtil
